import Mathlib

/-!
Verification of the inventory & procurement core of the printing/publisher
management system.

The embedding models the business-logic services over an explicit database
state `DB` (association lists keyed by surrogate integer ids, mirroring the
relational tables).  Quantities and prices are modelled as rationals `ℚ`
(the Python code uses `float`; all arithmetic relevant here is exact).
Transactions are modelled by computing a tentative state and returning the
original state on any error (rollback).  Error messages raised by the stock
engine are kept structural (`BatchErr`) rather than formatted into strings;
all other messages reproduce the source strings.  Database-generated log ids
are abstracted away: the audit log is the list `DB.stockLog`.
-/

namespace PrintPub

set_option maxRecDepth 4000

/-- A material row (材料表): name, quantity-on-hand, safety stock, unit price. -/
structure Material where
  name : String
  quantity : ℚ
  safety : ℚ := 0
  price : ℚ := 0
deriving Repr, DecidableEq

/-- A supplier row (供应商表); `status` is the cooperation status (合作状态). -/
structure Supplier where
  name : String := ""
  status : String
deriving Repr, DecidableEq

/-- A material-supplier link row (材料供应商关联表); `preferred` is the
是否为首选供应商 column, holding "是" or "否". -/
structure MSLink where
  material_id : Nat
  supplier_id : Nat
  price : ℚ
  preferred : String
deriving Repr, DecidableEq

/-- An employee row (员工表); `status` is the employment status (在职状态). -/
structure Employee where
  name : String := ""
  status : String
deriving Repr, DecidableEq

/-- A book row (书籍核心信息表). -/
structure Book where
  name : String := ""
deriving Repr, DecidableEq

/-- A printing-task row (印刷任务表). Due dates are abstracted as integers
(day ordinals); the task status (任务状态) is one of
待开始 / 进行中 / 已完成 / 已取消. -/
structure PTask where
  employee_id : Nat
  book_id : Nat
  qty : Int
  status : String
  due_date : Int := 0
  completed_date : Option String := none
deriving Repr, DecidableEq

/-- A purchase row (采购清单表); status (采购状态) is one of
待采购 / 已下单 / 已收货 / 已取消. -/
structure Purchase where
  task_id : Nat
  link_id : Nat
  qty : ℚ
  total_cost : ℚ
  status : String
  receipt_date : Option String := none
deriving Repr, DecidableEq

/-- A stock-log row (库存日志表): immutable audit record of one stock change. -/
structure StockLogEntry where
  material_id : Nat
  delta : ℚ
  change_type : String
  reference : String
  operator_id : Nat
  note : String
deriving Repr, DecidableEq

/-- The database state: one association list per table (keyed by id), the
append-only stock log, and the next auto-increment ids. -/
structure DB where
  materials : List (Nat × Material) := []
  suppliers : List (Nat × Supplier) := []
  links : List (Nat × MSLink) := []
  employees : List (Nat × Employee) := []
  books : List (Nat × Book) := []
  tasks : List (Nat × PTask) := []
  purchases : List (Nat × Purchase) := []
  stockLog : List StockLogEntry := []
  nextTaskId : Nat := 1
  nextPurchaseId : Nat := 1
deriving Repr, DecidableEq

/-- Lookup, modelling SELECT-by-id on an association list. -/
def alookup {α : Type} (l : List (Nat × α)) (k : Nat) : Option α :=
  match l with
  | [] => none
  | (k', v) :: rest => if k' = k then some v else alookup rest k

/-- Update-by-id: applies `f` to the value stored at key `k`. -/
def aupdate {α : Type} (l : List (Nat × α)) (k : Nat) (f : α → α) :
    List (Nat × α) :=
  match l with
  | [] => []
  | (k', v) :: rest =>
    if k' = k then (k', f v) :: rest else (k', v) :: aupdate rest k f

/-- Quantity-on-hand of a material, 0 when the row is absent
(mirrors `float(mat.get(..) or 0)` on an empty dict). -/
def qtyOf (mats : List (Nat × Material)) (mid : Nat) : ℚ :=
  match alookup mats mid with
  | some m => m.quantity
  | none => 0

/-- One element of a batch passed to `InventoryService.batch_update_stock`. -/
structure StockChange where
  material_id : Nat
  delta : ℚ
  change_type : String
  reference : String
  operator_id : Nat
  note : String
deriving Repr, DecidableEq

/-- The audit-log entry written for one stock change; an empty change type
defaults to 入库 for a non-negative delta and 出库 otherwise
(`ch.get(..) or (.. if delta >= 0 else ..)`). -/
def entryOf (c : StockChange) : StockLogEntry :=
  { material_id := c.material_id
    delta := c.delta
    change_type :=
      if c.change_type = "" then (if 0 ≤ c.delta then "入库" else "出库")
      else c.change_type
    reference := c.reference
    operator_id := c.operator_id
    note := c.note }

/-- Structured form of the exceptions raised inside the batch transaction. -/
inductive BatchErr where
  | notFound (material_id : Nat)
  | insufficient (material_id : Nat) (required available : ℚ)
deriving Repr, DecidableEq

/-- Overwrite the quantity-on-hand of one material. -/
def setQty (mats : List (Nat × Material)) (mid : Nat) (q : ℚ) :
    List (Nat × Material) :=
  aupdate mats mid (fun m => { m with quantity := q })

/-- The body of the batch transaction: processes the changes in order on the
tentative material table, returning the updated table, the log entries and
the per-change results, or the first raised error. -/
def applyChanges : List (Nat × Material) → List StockChange →
    Except BatchErr (List (Nat × Material) × List StockLogEntry × List (Nat × ℚ))
  | mats, [] => .ok (mats, [], [])
  | mats, c :: rest =>
    match alookup mats c.material_id with
    | none => .error (.notFound c.material_id)
    | some m =>
      if m.quantity + c.delta < 0 then
        .error (.insufficient c.material_id |c.delta| m.quantity)
      else
        match applyChanges (setQty mats c.material_id (m.quantity + c.delta)) rest with
        | .error e => .error e
        | .ok (mats', entries, results) =>
          .ok (mats', entryOf c :: entries, (c.material_id, m.quantity + c.delta) :: results)

/-- Response of `batch_update_stock`: per-change (material id, new quantity)
results on success, the raised error otherwise. -/
inductive BatchResp where
  | ok (results : List (Nat × ℚ))
  | error (e : BatchErr)
deriving Repr, DecidableEq

/-- Embedding of `InventoryService.batch_update_stock`: single-transaction batch stock
change; commits on success, rolls back entirely (state unchanged) on error. -/
def batch_update_stock (db : DB) (changes : List StockChange) : DB × BatchResp :=
  if changes.isEmpty then (db, .ok [])
  else
    match applyChanges db.materials changes with
    | .ok (mats', entries, results) =>
      ({ db with materials := mats', stockLog := db.stockLog ++ entries }, .ok results)
    | .error e => (db, .error e)

/-- Net delta that a batch applies to one material. -/
def sumDeltas (changes : List StockChange) (mid : Nat) : ℚ :=
  ((changes.filter (fun c => c.material_id = mid)).map (fun c => c.delta)).sum

/-- Spec-side predicate: applying the changes in order makes the `k`-th change
drive its material below zero (the quantity seen by change `k` is the initial
quantity plus the deltas of the earlier changes to the same material). -/
def failsAt (mats : List (Nat × Material)) (changes : List StockChange)
    (k : Fin changes.length) : Prop :=
  qtyOf mats (changes.get k).material_id
      + sumDeltas (changes.take k) (changes.get k).material_id
      + (changes.get k).delta < 0

instance (mats : List (Nat × Material)) (changes : List StockChange)
    (k : Fin changes.length) : Decidable (failsAt mats changes k) := by
  unfold failsAt; infer_instance

/-- Spec-side predicate: applying the changes in order would drive some
material below zero. -/
def wouldGoNegative (mats : List (Nat × Material)) (changes : List StockChange) :
    Prop :=
  ∃ k : Fin changes.length, failsAt mats changes k

instance (mats : List (Nat × Material)) (changes : List StockChange) :
    Decidable (wouldGoNegative mats changes) := by
  unfold wouldGoNegative; infer_instance

/-- Response type of `InventoryService.update_stock_level`. -/
inductive StockResp where
  | ok (new_quantity : ℚ)
  | err (message : String)
deriving Repr, DecidableEq

/-- Embedding of `InventoryService.update_stock_level`: single stock change with audit log,
validated (`new ≥ 0`) before the transaction; rollback on error. -/
def update_stock_level (db : DB) (material_id : Nat) (change_quantity : ℚ)
    (change_type : String) (reference_id : String) (operator_id : Nat)
    (note : String) : DB × StockResp :=
  match alookup db.materials material_id with
  | none => (db, .err "材料不存在")
  | some m =>
    let new_quantity := m.quantity + change_quantity
    if new_quantity < 0 then (db, .err "库存数量不能为负")
    else
      ({ db with
          materials := setQty db.materials material_id new_quantity,
          stockLog := db.stockLog ++
            [{ material_id := material_id, delta := change_quantity,
               change_type := change_type, reference := reference_id,
               operator_id := operator_id, note := note }] },
        .ok new_quantity)

/-- The task context dict handed to the requirement calculator
(printing quantity and book id). -/
structure TaskCtx where
  qty : Int
  book_id : Nat
deriving Repr, DecidableEq

/-- Embedding of `PrintingTaskService._calculate_material_requirements`: fixed factors per
material id — material 1 (paper) needs 0.5 per printed unit, material 2 (ink)
needs 0.1 per printed unit, regardless of the book. -/
def calculate_material_requirements (ctx : TaskCtx) : List (Nat × ℚ) :=
  [(1, (ctx.qty : ℚ) * (1 / 2)), (2, (ctx.qty : ℚ) * (1 / 10))]

/-- Display name of a material (`mat.get(..) or f"材料#..."`). -/
def matDisplayName (db : DB) (mid : Nat) : String :=
  match alookup db.materials mid with
  | some m => if m.name = "" then "材料#" ++ toString mid else m.name
  | none => "材料#" ++ toString mid

/-- One row of the shortage list returned by `complete_task_manual`. -/
structure ShortageItem where
  material_id : Nat
  material_name : String
  required_qty : ℚ
  current_stock : ℚ
  shortage : ℚ
deriving Repr, DecidableEq

/-- The shortage scan of `complete_task_manual`: one item per required
material whose current stock is below the required quantity. -/
def shortagesFor (db : DB) (required : List (Nat × ℚ)) : List ShortageItem :=
  required.filterMap (fun p =>
    let stock := qtyOf db.materials p.1
    if stock < p.2 then
      some { material_id := p.1, material_name := matDisplayName db p.1,
             required_qty := p.2, current_stock := stock,
             shortage := p.2 - stock }
    else none)

/-- The stock-out batch built from a requirement list (zero deltas skipped). -/
def outChangesFor (required : List (Nat × ℚ)) (reference : String)
    (operator_id : Nat) (note : String) : List StockChange :=
  required.filterMap (fun p =>
    if -p.2 = 0 then none
    else some { material_id := p.1, delta := -p.2, change_type := "出库",
                reference := reference, operator_id := operator_id, note := note })

/-- Response of the task-completion / task-status operations.  `stockErr`
models the propagated error message of a failed stock batch. -/
inductive TaskResp where
  | ok (message : String)
  | shortage (message : String) (items : List ShortageItem)
  | err (message : String)
  | stockErr (e : BatchErr)
deriving Repr, DecidableEq

/-- Embedding of `PrintingTaskService.complete_task_manual`: guarded manual completion —
rejects missing / cancelled / completed tasks and a missing operator, returns
the shortage list without mutating anything when stock is insufficient,
otherwise deducts all requirements in one batch and marks the task
已完成 (writing the completion date when given). -/
def complete_task_manual (db : DB) (task_id : Nat) (operator_id : Nat)
    (completed_date : Option String) : DB × TaskResp :=
  match alookup db.tasks task_id with
  | none => (db, .err "任务不存在")
  | some t =>
    if t.status = "已取消" then (db, .err "任务已取消，无法完成")
    else if t.status = "已完成" then (db, .err "任务已完成，无需重复操作")
    else if operator_id = 0 then (db, .err "无法确定库存操作人")
    else
      let required := calculate_material_requirements { qty := t.qty, book_id := t.book_id }
      let shortages := shortagesFor db required
      if shortages ≠ [] then (db, .shortage "库存不足，无法完成任务" shortages)
      else
        let changes := outChangesFor required ("task:" ++ toString task_id)
          operator_id "任务手动完结扣减"
        match (match changes with
               | [] => (db, BatchResp.ok [])
               | c :: cs => batch_update_stock db (c :: cs)) with
        | (_, .error e) => (db, .stockErr e)
        | (db1, .ok _) =>
          ({ db1 with tasks := aupdate db1.tasks task_id (fun tt =>
              { tt with status := "已完成",
                        completed_date :=
                          match completed_date with
                          | some d => some d
                          | none => tt.completed_date }) },
            .ok "任务已完成，材料已扣减")

/-- The four valid task-status values accepted by `update_task_status`. -/
def valid_statuses : List String := ["待开始", "进行中", "已完成", "已取消"]

/-- Embedding of `PrintingTaskService.update_task_status`: validates only that the target
status is one of the four known values; when the target is 已完成 it deducts
the computed material consumption through the stock engine first (operator
falls back to the task employee), then writes the new status.  It never
inspects the current status of the task. -/
def update_task_status (db : DB) (task_id : Nat) (new_status : String)
    (actual_completion_date : Option String) (operator_id : Nat) : DB × TaskResp :=
  if new_status ∉ valid_statuses then
    (db, .err ("无效的状态值。必须是: " ++ String.intercalate ", " valid_statuses))
  else if new_status = "已完成" then
    match alookup db.tasks task_id with
    | none => (db, .err "任务不存在")
    | some t =>
      let required := calculate_material_requirements { qty := t.qty, book_id := t.book_id }
      let op := if operator_id ≠ 0 then operator_id else t.employee_id
      if op = 0 then
        (db, .err "无法确定库存操作人，请传入 operator_id 或确保任务有员工id")
      else
        let changes := outChangesFor required ("task:" ++ toString task_id) op
          "任务完成实际消耗"
        match (match changes with
               | [] => (db, BatchResp.ok [])
               | c :: cs => batch_update_stock db (c :: cs)) with
        | (_, .error e) => (db, .stockErr e)
        | (db1, .ok _) =>
          ({ db1 with tasks := aupdate db1.tasks task_id (fun tt =>
              { tt with status := "已完成",
                        completed_date :=
                          match actual_completion_date with
                          | some d => some d
                          | none => tt.completed_date }) },
            .ok "任务状态更新成功")
  else
    match alookup db.tasks task_id with
    | none => (db, .err "任务状态更新失败")
    | some _ =>
      ({ db with tasks := aupdate db.tasks task_id (fun tt =>
          { tt with status := new_status }) },
        .ok "任务状态更新成功")

/-- True when the supplier of a link is in active cooperation (合作中);
a dangling supplier id is dropped, as the SQL inner join does. -/
def supplierActive (db : DB) (sid : Nat) : Bool :=
  match alookup db.suppliers sid with
  | some s => s.status = "合作中"
  | none => false

/-- The `ORDER BY 是否为首选供应商 DESC, 供应商提供的材料单价 ASC` ordering of
`材料供应商关联DAO.get_material_suppliers` (preferred links first, then
ascending unit price). -/
def linkRel (a b : Nat × MSLink) : Prop :=
  (a.2.preferred = "是" ∧ b.2.preferred ≠ "是") ∨
    ((a.2.preferred = "是" ↔ b.2.preferred = "是") ∧ a.2.price ≤ b.2.price)

instance : DecidableRel linkRel := fun a b => by unfold linkRel; infer_instance

/-- Embedding of the DAO query get_material_suppliers: all links of the material whose
supplier is active, sorted preferred-first then by ascending price. -/
def get_material_suppliers (db : DB) (material_id : Nat) : List (Nat × MSLink) :=
  List.insertionSort linkRel
    (db.links.filter (fun p =>
      decide (p.2.material_id = material_id) && supplierActive db p.2.supplier_id))

/-- Python `min(l, key)` on a nonempty list (head + tail): keeps the first
element attaining the minimal key. -/
def pyMin {α : Type} (key : α → ℚ) (a : α) (l : List α) : α :=
  l.foldl (fun acc x => if key x < key acc then x else acc) a

/-- Embedding of `PrintingTaskService._select_optimal_supplier`: among the active-supplier
links of the material, the cheapest preferred link when a preferred link
exists, otherwise the cheapest link; `none` when there is no candidate. -/
def select_optimal_supplier (db : DB) (material_id : Nat) :
    Option (Nat × MSLink) :=
  match get_material_suppliers db material_id with
  | [] => none
  | s :: rest =>
    match (s :: rest).filter (fun p => decide (p.2.preferred = "是")) with
    | [] => some (pyMin (fun p => p.2.price) s rest)
    | q :: qrest => some (pyMin (fun p => p.2.price) q qrest)

/-- Rounding to 2 decimal places (Python `round(x, 2)`; tie behaviour of
binary floats is abstracted to rounding to the nearest hundredth). -/
def round2 (q : ℚ) : ℚ := (round (q * 100) : ℤ) / 100

/-- Response of `PurchaseService.create_purchase`. -/
inductive CreateResp where
  | ok (purchase_id : Nat)
  | err (message : String)
deriving Repr, DecidableEq

/-- Embedding of `PurchaseService.create_purchase`: requires a chosen task and link, a
positive quantity, an existing non-cancelled task and an existing link; the
created row starts 待采购 with total cost `round2 (quantity * link price)`. -/
def create_purchase (db : DB) (task_id link_id : Nat) (quantity : ℚ) :
    DB × CreateResp :=
  if task_id = 0 ∨ link_id = 0 then (db, .err "任务与材料-供应商关联必须选择")
  else if quantity ≤ 0 then (db, .err "采购数量必须大于0")
  else
    match alookup db.tasks task_id with
    | none => (db, .err "印刷任务不存在或已删除，请先创建印刷任务")
    | some t =>
      if t.status = "已取消" then (db, .err "该印刷任务已取消，不能创建采购")
      else
        match alookup db.links link_id with
        | none => (db, .err "材料-供应商关联不存在")
        | some link =>
          let p : Purchase :=
            { task_id := task_id, link_id := link_id, qty := quantity,
              total_cost := round2 (quantity * link.price), status := "待采购" }
          ({ db with purchases := db.purchases ++ [(db.nextPurchaseId, p)],
                     nextPurchaseId := db.nextPurchaseId + 1 },
            .ok db.nextPurchaseId)

/-- Response of the purchase status / receipt operations. -/
inductive PurchResp where
  | ok (message : String) (new_quantity : Option ℚ)
  | err (message : String)
deriving Repr, DecidableEq

/-- Embedding of `PurchaseService.update_status`: strict state machine
待采购 → 已下单/已取消, 已下单 → 已取消; terminal rows (已收货 / 已取消)
are immutable; target 已收货 is always redirected to the receive operation.
The `receipt_date` argument is accepted but never used. -/
def purchase_update_status (db : DB) (purchase_id : Nat) (new_status : String)
    (receipt_date : Option String) : DB × PurchResp :=
  match alookup db.purchases purchase_id with
  | none => (db, .err "采购记录不存在")
  | some record =>
    if record.status = "已收货" ∨ record.status = "已取消" then
      (db, .err "该采购记录已完成或已取消，状态不可再修改")
    else if new_status ∉ ["待采购", "已下单", "已收货", "已取消"] then
      (db, .err "无效的采购状态")
    else
      let allowed : List String :=
        if record.status = "待采购" then ["已下单", "已取消"]
        else if record.status = "已下单" then ["已取消"]
        else []
      if (record.status = "待采购" ∨ record.status = "已下单") ∧ new_status ∈ allowed then
        ({ db with purchases := aupdate db.purchases purchase_id (fun p =>
            { p with status := new_status }) },
          .ok "采购状态已更新" none)
      else if new_status = "已收货" then
        (db, .err "请使用收货入库来完成收货操作")
      else
        (db, .err ("非法的状态流转：" ++ record.status ++ " -> " ++ new_status))

/-- Embedding of `PurchaseService.receive_purchase`: only a 待采购 purchase can be
received; performs the stock-in (reference `purchase:id`, kind 入库) first
and only on its success marks the row 已收货 with the receipt date
(defaulting to `today`); a failed stock-in leaves everything unchanged. -/
def receive_purchase (db : DB) (purchase_id : Nat) (operator_employee_id : Nat)
    (receipt_date : Option String) (today : String) : DB × PurchResp :=
  match alookup db.purchases purchase_id with
  | none => (db, .err "采购记录不存在")
  | some row =>
    if row.status = "已收货" then (db, .err "该采购已收货，不能重复收货")
    else if row.status = "已取消" then (db, .err "已取消的采购无法收货")
    else if row.status ≠ "待采购" then (db, .err "仅\x27待采购\x27的采购可以收货入库")
    else
      match (if row.link_id = 0 then none else alookup db.links row.link_id) with
      | none => (db, .err "找不到关联的材料-供应商信息")
      | some link =>
        if row.qty ≤ 0 then (db, .err "采购数量无效，无法入库")
        else
          let rdate := receipt_date.getD today
          match update_stock_level db link.material_id row.qty "入库"
              ("purchase:" ++ toString purchase_id) operator_employee_id
              "采购收货入库" with
          | (db1, .err m) => (db1, .err ("入库失败: " ++ m))
          | (db1, .ok new_quantity) =>
            ({ db1 with purchases := aupdate db1.purchases purchase_id (fun p =>
                { p with status := "已收货", receipt_date := some rdate }) },
              .ok "收货并入库成功" (some new_quantity))

/-- A submitted due-date field: either a parseable calendar date (abstracted
as a day ordinal) or an unparseable value. -/
inductive DateField where
  | valid (d : Int)
  | invalid
deriving Repr, DecidableEq

/-- The `task_data` dict handed to `submit_printing_task`; `none` models a
missing or null field. -/
structure TaskData where
  employee_id : Option Nat
  book_id : Option Nat
  due_date : Option DateField
  qty : Option Int
deriving Repr, DecidableEq

/-- Names of the required fields missing from the task data, in the order
checked by `_validate_required_fields`. -/
def missing_fields (td : TaskData) : List String :=
  (if td.employee_id = none then ["员工id"] else []) ++
    (if td.book_id = none then ["书籍id"] else []) ++
    (if td.due_date = none then ["预计完成日期"] else []) ++
    (if td.qty = none then ["印刷数量"] else [])

/-- Embedding of `PrintingTaskService._validate_task_data`: required fields, positive
quantity, parseable due date not before `today`; `some msg` on failure. -/
def validate_task_data (td : TaskData) (today : Int) : Option String :=
  if missing_fields td ≠ [] then
    some ("缺少必需字段: " ++ String.intercalate ", " (missing_fields td))
  else
    match td.qty, td.due_date with
    | some q, some df =>
      if q ≤ 0 then some "印刷数量必须大于0"
      else
        match df with
        | .invalid => some "预计完成日期格式必须为 YYYY-MM-DD"
        | .valid d => if d < today then some "预计完成日期不能是过去的时间" else none
    | _, _ => none

/-- Embedding of `PrintingTaskService._validate_associated_data`: the referenced employee
must exist and be 在职, the referenced book must exist. -/
def validate_associated_data (db : DB) (td : TaskData) : Option String :=
  match td.employee_id.bind (alookup db.employees) with
  | none => some "指定的员工不存在或已离职"
  | some e =>
    if e.status ≠ "在职" then some "指定的员工不存在或已离职"
    else
      match td.book_id.bind (alookup db.books) with
      | none => some "指定的书籍不存在"
      | some _ => none

/-- The error message listing the materials that have no eligible supplier
(built exactly as `_generate_purchase_requirements` formats it). -/
def missingMsg (db : DB) (missing : List Nat) : String :=
  "以下材料没有可用供应商：" ++
    String.intercalate ", " (missing.map (fun mid =>
      match alookup db.materials mid with
      | some m => m.name ++ "(ID:" ++ toString mid ++ ")"
      | none => "ID:" ++ toString mid)) ++
    "。请到‘材料/供应商’维护关联或设为合作中。"

/-- The purchase row inserted by the requirement loop for one required
material: total cost is `round2 (required quantity × link price)`. -/
def mkGenPurchase (task_id : Nat) (p : Nat × ℚ) (best : Nat × MSLink) : Purchase :=
  { task_id := task_id, link_id := best.1, qty := p.2,
    total_cost := round2 (p.2 * best.2.price), status := "待采购" }

/-- The tentative transaction state after inserting one generated purchase. -/
def dbAfter (db : DB) (task_id : Nat) (p : Nat × ℚ) (best : Nat × MSLink) : DB :=
  { db with
    purchases := db.purchases ++ [(db.nextPurchaseId, mkGenPurchase task_id p best)],
    nextPurchaseId := db.nextPurchaseId + 1 }

/-- The purchase-creation loop of `_generate_purchase_requirements`: for each
required material, selects a supplier and inserts a 待采购 purchase row,
collecting the ids of materials with no eligible supplier.  Returns
(tentative db, created purchase ids, missing material ids). -/
def genPurchases (db : DB) (task_id : Nat) :
    List (Nat × ℚ) → DB × List Nat × List Nat
  | [] => (db, [], [])
  | p :: rest =>
    match select_optimal_supplier db p.1 with
    | none =>
      let r := genPurchases db task_id rest
      (r.1, r.2.1, p.1 :: r.2.2)
    | some best =>
      let r := genPurchases (dbAfter db task_id p best) task_id rest
      (r.1, db.nextPurchaseId :: r.2.1, r.2.2)

/-- Response of `submit_printing_task`. -/
inductive SubmitResp where
  | ok (task_id : Nat) (message : String)
  | err (message : String)
deriving Repr, DecidableEq

/-- Embedding of `PrintingTaskService.submit_printing_task`: validates the task data and
its references before any mutation, then in one transaction inserts the task
row (initial status 待开始) and one purchase order per required material;
when any required material has no eligible supplier the whole transaction is
rolled back and the error lists all missing materials. -/
def submit_printing_task (db : DB) (td : TaskData) (today : Int) :
    DB × SubmitResp :=
  match validate_task_data td today with
  | some msg => (db, .err msg)
  | none =>
    match validate_associated_data db td with
    | some msg => (db, .err msg)
    | none =>
      match td.employee_id, td.book_id, td.qty, td.due_date with
      | some eid, some bid, some q, some (.valid d) =>
        let task_id := db.nextTaskId
        let newTask : PTask :=
          { employee_id := eid, book_id := bid, qty := q,
            status := "待开始", due_date := d }
        let db1 := { db with tasks := db.tasks ++ [(task_id, newTask)],
                             nextTaskId := db.nextTaskId + 1 }
        let required := calculate_material_requirements { qty := q, book_id := bid }
        let r := genPurchases db1 task_id required
        if r.2.2 ≠ [] then
          (db, .err ("系统错误: 生成采购需求失败: " ++ missingMsg db r.2.2))
        else
          (r.1, .ok task_id ("印刷任务提交成功！任务ID: " ++ toString task_id))
      | _, _, _, _ => (db, .err "系统错误: unreachable")

/-! ### Association-list lemmas -/

theorem alookup_aupdate_self {α : Type} (l : List (Nat × α)) (k : Nat) (f : α → α) :
    alookup (aupdate l k f) k = (alookup l k).map f := by
  induction l with
  | nil => rfl
  | cons hd t ih =>
    obtain ⟨k', v⟩ := hd
    by_cases hk : k' = k
    · simp [aupdate, alookup, hk]
    · simp [aupdate, alookup, hk, ih]

theorem alookup_aupdate_ne {α : Type} (l : List (Nat × α)) (k x : Nat) (f : α → α)
    (h : x ≠ k) : alookup (aupdate l k f) x = alookup l x := by
  induction l with
  | nil => rfl
  | cons hd t ih =>
    obtain ⟨k', v⟩ := hd
    by_cases hk : k' = k
    · subst hk
      have hne : ¬ k' = x := fun hh => h (hh.symm)
      simp [aupdate, alookup, hne]
    · by_cases hx : k' = x
      · simp [aupdate, alookup, hk, hx, h]
      · simp [aupdate, alookup, hk, hx, ih]

theorem alookup_aupdate_isSome {α : Type} (l : List (Nat × α)) (k x : Nat)
    (f : α → α) :
    (alookup (aupdate l k f) x).isSome = (alookup l x).isSome := by
  by_cases h : x = k
  · subst h
    rw [alookup_aupdate_self]
    cases alookup l x <;> rfl
  · rw [alookup_aupdate_ne _ _ _ _ h]

theorem alookup_aupdate_map {α β : Type} (l : List (Nat × α)) (k x : Nat)
    (f : α → α) (g : α → β) (hfg : ∀ a, g (f a) = g a) :
    (alookup (aupdate l k f) x).map g = (alookup l x).map g := by
  by_cases h : x = k
  · subst h
    rw [alookup_aupdate_self]
    cases alookup l x with
    | none => rfl
    | some a => simp [hfg]
  · rw [alookup_aupdate_ne _ _ _ _ h]

theorem qtyOf_setQty (mats : List (Nat × Material)) (mid : Nat) (q : ℚ)
    (m : Material) (hm : alookup mats mid = some m) (x : Nat) :
    qtyOf (setQty mats mid q) x = if x = mid then q else qtyOf mats x := by
  by_cases h : x = mid
  · subst h
    unfold qtyOf setQty
    rw [alookup_aupdate_self, hm]
    simp
  · unfold qtyOf setQty
    rw [alookup_aupdate_ne _ _ _ _ h]
    simp [h]

/-! ### Stock-engine batch lemmas -/

theorem sumDeltas_nil (mid : Nat) : sumDeltas [] mid = 0 := rfl

theorem sumDeltas_cons (c : StockChange) (cs : List StockChange) (mid : Nat) :
    sumDeltas (c :: cs) mid =
      (if c.material_id = mid then c.delta else 0) + sumDeltas cs mid := by
  unfold sumDeltas
  by_cases h : c.material_id = mid <;> simp [List.filter_cons, h]

theorem qtyOf_shift (mats : List (Nat × Material)) (c : StockChange)
    (m : Material) (hm : alookup mats c.material_id = some m) (x : Nat) :
    qtyOf (setQty mats c.material_id (m.quantity + c.delta)) x =
      qtyOf mats x + (if c.material_id = x then c.delta else 0) := by
  rw [qtyOf_setQty mats c.material_id _ m hm x]
  by_cases h : x = c.material_id
  · subst h
    simp [qtyOf, hm]
  · have h' : ¬ c.material_id = x := fun hh => h hh.symm
    simp [h, h']

theorem failsAt_zero_iff (mats : List (Nat × Material)) (c : StockChange)
    (rest : List StockChange) (m : Material)
    (hm : alookup mats c.material_id = some m) :
    failsAt mats (c :: rest) (0 : Fin (rest.length + 1)) ↔
      m.quantity + c.delta < 0 := by
  unfold failsAt
  simp [qtyOf, hm, sumDeltas]

theorem failsAt_succ_iff (mats : List (Nat × Material)) (c : StockChange)
    (rest : List StockChange) (m : Material)
    (hm : alookup mats c.material_id = some m) (k : Fin rest.length) :
    failsAt mats (c :: rest) k.succ ↔
      failsAt (setQty mats c.material_id (m.quantity + c.delta)) rest k := by
  unfold failsAt
  have hget : (c :: rest).get k.succ = rest.get k := rfl
  have hval : ((k.succ : Fin (rest.length + 1)) : Nat) = (k : Nat) + 1 := rfl
  rw [hget, hval, List.take_succ_cons, sumDeltas_cons]
  have hq := qtyOf_shift mats c m hm (rest.get k).material_id
  constructor <;> intro h <;> [rw [hq]; rw [hq] at h] <;> linarith

theorem wouldGoNegative_cons (mats : List (Nat × Material)) (c : StockChange)
    (rest : List StockChange) (m : Material)
    (hm : alookup mats c.material_id = some m) :
    wouldGoNegative mats (c :: rest) ↔
      m.quantity + c.delta < 0 ∨
        wouldGoNegative (setQty mats c.material_id (m.quantity + c.delta)) rest := by
  unfold wouldGoNegative
  show (∃ k : Fin (rest.length + 1), failsAt mats (c :: rest) k) ↔ _
  rw [Fin.exists_fin_succ, failsAt_zero_iff mats c rest m hm]
  constructor
  · rintro (h | ⟨k, hk⟩)
    · exact Or.inl h
    · exact Or.inr ⟨k, (failsAt_succ_iff mats c rest m hm k).1 hk⟩
  · rintro (h | ⟨k, hk⟩)
    · exact Or.inl h
    · exact Or.inr ⟨k, (failsAt_succ_iff mats c rest m hm k).2 hk⟩

/-- Full characterisation of the batch transaction body: when no in-order
application would go negative it succeeds, applying the net delta of the
batch to every material and emitting one log entry per change; otherwise it
raises `insufficient` at the first violating change, carrying the material id of
that change, its absolute delta and the quantity the change observed. -/
theorem applyChanges_spec :
    ∀ (changes : List StockChange) (mats : List (Nat × Material)),
    (∀ c ∈ changes, (alookup mats c.material_id).isSome) →
    (¬ wouldGoNegative mats changes →
      ∃ mats' results,
        applyChanges mats changes = .ok (mats', changes.map entryOf, results) ∧
        ∀ mid, qtyOf mats' mid = qtyOf mats mid + sumDeltas changes mid ∧
          (alookup mats' mid).isSome = (alookup mats mid).isSome) ∧
    (wouldGoNegative mats changes →
      ∃ k : Fin changes.length, failsAt mats changes k ∧
        (∀ j : Fin changes.length, (j : Nat) < (k : Nat) → ¬ failsAt mats changes j) ∧
        applyChanges mats changes = .error (.insufficient (changes.get k).material_id
          |(changes.get k).delta|
          (qtyOf mats (changes.get k).material_id +
            sumDeltas (changes.take k) (changes.get k).material_id))) := by
  intro changes
  induction changes with
  | nil =>
    intro mats _
    constructor
    · intro _
      exact ⟨mats, [], rfl, fun mid => by simp [sumDeltas]⟩
    · rintro ⟨k, _⟩
      exact absurd k.2 (by simp)
  | cons c rest ih =>
    intro mats hmem
    obtain ⟨m, hm⟩ := Option.isSome_iff_exists.1 (hmem c (by simp))
    by_cases hneg : m.quantity + c.delta < 0
    · have hstep : applyChanges mats (c :: rest) =
          .error (.insufficient c.material_id |c.delta| m.quantity) := by
        unfold applyChanges
        rw [hm]
        simp [hneg]
      constructor
      · intro hno
        exact absurd ⟨(0 : Fin (rest.length + 1)),
          (failsAt_zero_iff mats c rest m hm).2 hneg⟩ hno
      · intro _
        refine ⟨(0 : Fin (rest.length + 1)),
          (failsAt_zero_iff mats c rest m hm).2 hneg, ?_, ?_⟩
        · intro j hj
          exact absurd hj (by simp)
        · rw [hstep]
          simp [qtyOf, hm, sumDeltas]
    · set mats' := setQty mats c.material_id (m.quantity + c.delta) with hmats'
      have hmem' : ∀ c' ∈ rest, (alookup mats' c'.material_id).isSome := by
        intro c' hc'
        rw [hmats']
        unfold setQty
        rw [alookup_aupdate_isSome]
        exact hmem c' (by simp [hc'])
      have hIH := ih mats' hmem'
      have hcons := wouldGoNegative_cons mats c rest m hm
      by_cases hwgn : wouldGoNegative mats' rest
      · obtain ⟨k', hfail', hmin', herr'⟩ := hIH.2 hwgn
        have hstep : applyChanges mats (c :: rest) =
            .error (.insufficient (rest.get k').material_id
              |(rest.get k').delta|
              (qtyOf mats' (rest.get k').material_id +
                sumDeltas (rest.take k') (rest.get k').material_id)) := by
          unfold applyChanges
          rw [hm]
          simp only [if_neg hneg, ← hmats', herr']
        constructor
        · intro hno
          exact absurd (hcons.2 (Or.inr hwgn)) hno
        · intro _
          refine ⟨k'.succ, (failsAt_succ_iff mats c rest m hm k').2 hfail', ?_, ?_⟩
          · intro j
            refine Fin.cases ?_ ?_ j
            · intro _
              rw [failsAt_zero_iff mats c rest m hm]
              exact hneg
            · intro j₀ hj₀
              rw [failsAt_succ_iff mats c rest m hm j₀]
              refine hmin' j₀ ?_
              have hlt : (j₀ : Nat) + 1 < (k' : Nat) + 1 := by simpa using hj₀
              omega
          · rw [hstep]
            have hget : (c :: rest).get k'.succ = rest.get k' := rfl
            have hval : ((k'.succ : Fin (rest.length + 1)) : Nat) = (k' : Nat) + 1 := rfl
            rw [hget, hval, List.take_succ_cons, sumDeltas_cons]
            have hq := qtyOf_shift mats c m hm (rest.get k').material_id
            rw [hmats'] at *
            congr 1
            rw [hq]
            ring_nf
      · obtain ⟨mats'', results, heq, hq⟩ := hIH.1 hwgn
        have hstep : applyChanges mats (c :: rest) =
            .ok (mats'', entryOf c :: rest.map entryOf,
              (c.material_id, m.quantity + c.delta) :: results) := by
          unfold applyChanges
          rw [hm]
          simp only [if_neg hneg, ← hmats', heq]
        constructor
        · intro _
          refine ⟨mats'', (c.material_id, m.quantity + c.delta) :: results, ?_, ?_⟩
          · rw [hstep]
            simp
          · intro mid
            constructor
            · rw [(hq mid).1, sumDeltas_cons, hmats',
                qtyOf_shift mats c m hm mid]
              ring_nf
            · rw [(hq mid).2, hmats']
              unfold setQty
              rw [alookup_aupdate_isSome]
        · intro hw
          rcases hcons.1 hw with h | h
          · exact absurd h hneg
          · exact absurd h hwgn

/-- C1: for every batch handed to `batch_update_stock`, if applying the
changes in order would drive any material below 0 the whole batch fails with
`insufficient` carrying the first violating change's material id, required
amount and available amount, and the state (materials, stock log, and every
other table) is unchanged; if no change would go negative, every material
ends at its current quantity plus the net delta of the batch and exactly one
log entry with matching delta is appended per change. -/
theorem batch_update_stock_all_or_nothing (db : DB) (changes : List StockChange)
    (hmem : ∀ c ∈ changes, (alookup db.materials c.material_id).isSome) :
    (wouldGoNegative db.materials changes →
      ∃ k : Fin changes.length, failsAt db.materials changes k ∧
        (∀ j : Fin changes.length, (j : Nat) < (k : Nat) →
          ¬ failsAt db.materials changes j) ∧
        batch_update_stock db changes =
          (db, .error (.insufficient (changes.get k).material_id
            |(changes.get k).delta|
            (qtyOf db.materials (changes.get k).material_id +
              sumDeltas (changes.take k) (changes.get k).material_id)))) ∧
    (¬ wouldGoNegative db.materials changes →
      ∃ db' results, batch_update_stock db changes = (db', .ok results) ∧
        (∀ mid, qtyOf db'.materials mid =
          qtyOf db.materials mid + sumDeltas changes mid) ∧
        db'.stockLog = db.stockLog ++ changes.map entryOf ∧
        db'.tasks = db.tasks ∧ db'.purchases = db.purchases ∧
        db'.suppliers = db.suppliers ∧ db'.links = db.links) := by
  cases changes with
  | nil =>
    constructor
    · rintro ⟨k, _⟩
      exact absurd k.2 (by simp)
    · intro _
      exact ⟨db, [], rfl, fun mid => by simp [sumDeltas],
        (List.append_nil _).symm, rfl, rfl, rfl, rfl⟩
  | cons c rest =>
    have h := applyChanges_spec (c :: rest) db.materials hmem
    constructor
    · intro hw
      obtain ⟨k, hf, hmin, herr⟩ := h.2 hw
      refine ⟨k, hf, hmin, ?_⟩
      simp [batch_update_stock, herr]
    · intro hno
      obtain ⟨mats', results, heq, hq⟩ := h.1 hno
      let db' : DB := { db with
        materials := mats',
        stockLog := db.stockLog ++ (c :: rest).map entryOf }
      refine ⟨db', results, ?_, fun mid => (hq mid).1, rfl, rfl, rfl, rfl, rfl⟩
      simp [batch_update_stock, heq, db']

/-- Database used to witness the batch stock theorem. -/
def c1db : DB :=
  { materials := [(1, { name := "纸张", quantity := 10 }),
                  (2, { name := "油墨", quantity := 5 })] }

/-- A concrete two-change batch: stock-out 4 of material 1, stock-in 2 of
material 2. -/
def c1changes : List StockChange :=
  [{ material_id := 1, delta := -4, change_type := "出库",
     reference := "task:9", operator_id := 3, note := "" },
   { material_id := 2, delta := 2, change_type := "入库",
     reference := "purchase:1", operator_id := 3, note := "" }]

theorem batch_update_stock_all_or_nothing_witness :
    (∀ c ∈ c1changes, (alookup c1db.materials c.material_id).isSome) ∧
    ¬ wouldGoNegative c1db.materials c1changes ∧
    (∃ db' results, batch_update_stock c1db c1changes = (db', .ok results) ∧
      (∀ mid, qtyOf db'.materials mid =
        qtyOf c1db.materials mid + sumDeltas c1changes mid) ∧
      db'.stockLog = c1db.stockLog ++ c1changes.map entryOf ∧
      db'.tasks = c1db.tasks ∧ db'.purchases = c1db.purchases ∧
      db'.suppliers = c1db.suppliers ∧ db'.links = c1db.links) :=
  ⟨by decide, by with_unfolding_all decide,
    (batch_update_stock_all_or_nothing c1db c1changes (by decide)).2
      (by with_unfolding_all decide)⟩

/-- C9: the requirement calculator is a pure, deterministic function of the
task's printing quantity: it returns exactly material 1 ↦ quantity × 0.5 and
material 2 ↦ quantity × 0.1, independent of the book being printed. -/
theorem calculate_material_requirements_spec :
    (∀ ctx : TaskCtx, calculate_material_requirements ctx =
      [(1, (ctx.qty : ℚ) * (1 / 2)), (2, (ctx.qty : ℚ) * (1 / 10))]) ∧
    (∀ (q : Int) (b b' : Nat),
      calculate_material_requirements { qty := q, book_id := b } =
        calculate_material_requirements { qty := q, book_id := b' }) :=
  ⟨fun _ => rfl, fun _ _ _ => rfl⟩

/-! ### Shortage-list lemmas -/

theorem shortagesFor_sound (db : DB) (required : List (Nat × ℚ)) :
    ∀ it ∈ shortagesFor db required,
      it.shortage = it.required_qty - it.current_stock ∧
      it.current_stock = qtyOf db.materials it.material_id ∧
      it.current_stock < it.required_qty ∧
      (it.material_id, it.required_qty) ∈ required := by
  intro it hit
  simp only [shortagesFor, List.mem_filterMap] at hit
  obtain ⟨p, hp, hcond⟩ := hit
  by_cases h : qtyOf db.materials p.1 < p.2
  · simp only [if_pos h] at hcond
    obtain rfl := Option.some.inj hcond
    exact ⟨rfl, rfl, h, by simpa using hp⟩
  · simp [if_neg h] at hcond

theorem shortagesFor_complete (db : DB) (required : List (Nat × ℚ))
    (p : Nat × ℚ) (hp : p ∈ required) (h : qtyOf db.materials p.1 < p.2) :
    ({ material_id := p.1, material_name := matDisplayName db p.1,
       required_qty := p.2, current_stock := qtyOf db.materials p.1,
       shortage := p.2 - qtyOf db.materials p.1 } : ShortageItem) ∈
      shortagesFor db required := by
  simp only [shortagesFor, List.mem_filterMap]
  exact ⟨p, hp, by simp [h]⟩

theorem shortagesFor_ne_nil (db : DB) (required : List (Nat × ℚ))
    (hshort : ∃ p ∈ required, qtyOf db.materials p.1 < p.2) :
    shortagesFor db required ≠ [] := by
  obtain ⟨p, hp, h⟩ := hshort
  intro hnil
  have := shortagesFor_complete db required p hp h
  rw [hnil] at this
  exact absurd this (List.not_mem_nil _)

/-- C2: if the computed requirements of a task exceed current stock for at
least one material, `complete_task_manual` fails with a shortage result
enumerating exactly the short materials (with `shortfall = required -
available`), and performs no stock mutation and no task-status change. -/
theorem complete_task_manual_shortage_rejects (db : DB) (tid op : Nat)
    (cd : Option String) (t : PTask)
    (ht : alookup db.tasks tid = some t)
    (hnc : t.status ≠ "已取消") (hnd : t.status ≠ "已完成") (hop : op ≠ 0)
    (hshort : ∃ p ∈ calculate_material_requirements { qty := t.qty, book_id := t.book_id },
      qtyOf db.materials p.1 < p.2) :
    complete_task_manual db tid op cd =
      (db, .shortage "库存不足，无法完成任务"
        (shortagesFor db
          (calculate_material_requirements { qty := t.qty, book_id := t.book_id }))) ∧
    shortagesFor db
      (calculate_material_requirements { qty := t.qty, book_id := t.book_id }) ≠ [] ∧
    (∀ it ∈ shortagesFor db
        (calculate_material_requirements { qty := t.qty, book_id := t.book_id }),
      it.shortage = it.required_qty - it.current_stock ∧
      it.current_stock = qtyOf db.materials it.material_id ∧
      it.current_stock < it.required_qty ∧
      (it.material_id, it.required_qty) ∈
        calculate_material_requirements { qty := t.qty, book_id := t.book_id }) ∧
    (∀ p ∈ calculate_material_requirements { qty := t.qty, book_id := t.book_id },
      qtyOf db.materials p.1 < p.2 →
      ({ material_id := p.1, material_name := matDisplayName db p.1,
         required_qty := p.2, current_stock := qtyOf db.materials p.1,
         shortage := p.2 - qtyOf db.materials p.1 } : ShortageItem) ∈
        shortagesFor db
          (calculate_material_requirements { qty := t.qty, book_id := t.book_id })) := by
  have hne := shortagesFor_ne_nil db
    (calculate_material_requirements { qty := t.qty, book_id := t.book_id }) hshort
  refine ⟨?_, hne, shortagesFor_sound db _, fun p hp h => shortagesFor_complete db _ p hp h⟩
  simp only [complete_task_manual, ht]
  simp [hnc, hnd, hop, hne]

/-- Database for the C2 scenario: material 1 has stock 100 (safety 20),
task 7 prints 300 copies, so it requires 150 of material 1. -/
def c2db : DB :=
  { materials := [(1, { name := "铜版纸", quantity := 100, safety := 20 }),
                  (2, { name := "油墨", quantity := 1000 })],
    tasks := [(7, { employee_id := 5, book_id := 2, qty := 300,
                    status := "进行中" })] }

/-- The task row of the C2 scenario. -/
def c2task : PTask :=
  { employee_id := 5, book_id := 2, qty := 300, status := "进行中" }

theorem complete_task_manual_shortage_rejects_witness :
    alookup c2db.tasks 7 = some c2task ∧
    c2task.status ≠ "已取消" ∧ c2task.status ≠ "已完成" ∧ (5 : Nat) ≠ 0 ∧
    (∃ p ∈ calculate_material_requirements { qty := c2task.qty, book_id := c2task.book_id },
      qtyOf c2db.materials p.1 < p.2) ∧
    shortagesFor c2db
        (calculate_material_requirements { qty := c2task.qty, book_id := c2task.book_id }) =
      [{ material_id := 1, material_name := "铜版纸", required_qty := 150,
         current_stock := 100, shortage := 50 }] ∧
    (complete_task_manual c2db 7 5 none =
      (c2db, .shortage "库存不足，无法完成任务"
        (shortagesFor c2db
          (calculate_material_requirements { qty := c2task.qty, book_id := c2task.book_id }))) ∧
      shortagesFor c2db
        (calculate_material_requirements { qty := c2task.qty, book_id := c2task.book_id }) ≠ [] ∧
      (∀ it ∈ shortagesFor c2db
          (calculate_material_requirements { qty := c2task.qty, book_id := c2task.book_id }),
        it.shortage = it.required_qty - it.current_stock ∧
        it.current_stock = qtyOf c2db.materials it.material_id ∧
        it.current_stock < it.required_qty ∧
        (it.material_id, it.required_qty) ∈
          calculate_material_requirements { qty := c2task.qty, book_id := c2task.book_id }) ∧
      (∀ p ∈ calculate_material_requirements { qty := c2task.qty, book_id := c2task.book_id },
        qtyOf c2db.materials p.1 < p.2 →
        ({ material_id := p.1, material_name := matDisplayName c2db p.1,
           required_qty := p.2, current_stock := qtyOf c2db.materials p.1,
           shortage := p.2 - qtyOf c2db.materials p.1 } : ShortageItem) ∈
          shortagesFor c2db
            (calculate_material_requirements { qty := c2task.qty, book_id := c2task.book_id }))) :=
  ⟨by decide, by decide, by decide, by decide, by with_unfolding_all decide,
    by
      norm_num [shortagesFor, calculate_material_requirements, matDisplayName, qtyOf,
        alookup, c2db, c2task, List.filterMap_cons]
      intro h
      exact absurd h (by decide),
    complete_task_manual_shortage_rejects c2db 7 5 none c2task (by decide)
      (by decide) (by decide) (by decide) (by with_unfolding_all decide)⟩

/-- Database for C3: task 1 is already 已完成, task 2 is 已取消; both
materials have ample stock. -/
def c3db : DB :=
  { materials := [(1, { name := "纸张", quantity := 10 }),
                  (2, { name := "油墨", quantity := 10 })],
    tasks := [(1, { employee_id := 5, book_id := 1, qty := 2, status := "已完成" }),
              (2, { employee_id := 4, book_id := 1, qty := 2, status := "已取消" })] }

/-- The already-completed task of `c3db`. -/
def c3done : PTask :=
  { employee_id := 5, book_id := 1, qty := 2, status := "已完成" }

/-- The cancelled task of `c3db`. -/
def c3cancelled : PTask :=
  { employee_id := 4, book_id := 1, qty := 2, status := "已取消" }

/-- C3 counterexample: task 1 of `c3db` is already 已完成, yet the generic
status update to 已完成 succeeds (it even deducts the material consumption a
second time), so `update_task_status` has no terminal-state guard. -/
theorem update_task_status_no_terminal_guard :
    alookup c3db.tasks 1 = some c3done ∧ c3done.status = "已完成" ∧
    (update_task_status c3db 1 "已完成" none 5).2 = .ok "任务状态更新成功" ∧
    (update_task_status c3db 1 "已完成" none 5).1.materials ≠ c3db.materials := by
  refine ⟨by decide, by decide, ?_, ?_⟩ <;>
    [skip; skip] <;>
    norm_num [update_task_status, valid_statuses, alookup, c3db, c3done,
      calculate_material_requirements, outChangesFor, batch_update_stock,
      applyChanges, setQty, aupdate, qtyOf, List.filterMap_cons, entryOf] <;>
    rfl

/-- C3 amended: `complete_task_manual` is rejected with an error and changes
nothing when the task is already 已取消 or 已完成, but the generic
`update_task_status` applies no terminal-state guard: any target status
other than 已完成 is written unconditionally regardless of the current
status (and a target of 已完成 is also accepted from terminal states,
re-deducting stock, as the counterexample shows). -/
theorem terminal_guard_amended (db : DB) (tid op : Nat) (cd : Option String)
    (t : PTask) (ht : alookup db.tasks tid = some t)
    (hterm : t.status = "已取消" ∨ t.status = "已完成") :
    (∃ msg, complete_task_manual db tid op cd = (db, .err msg)) ∧
    (∀ ns, ns ∈ ["待开始", "进行中", "已取消"] →
      update_task_status db tid ns none op =
        ({ db with tasks := aupdate db.tasks tid (fun tt =>
            { tt with status := ns }) },
          .ok "任务状态更新成功")) := by
  constructor
  · rcases hterm with h | h
    · exact ⟨"任务已取消，无法完成", by simp [complete_task_manual, ht, h]⟩
    · refine ⟨"任务已完成，无需重复操作", ?_⟩
      have hne : t.status ≠ "已取消" := by rw [h]; decide
      simp [complete_task_manual, ht, h, hne]
  · intro ns hns
    fin_cases hns <;> simp [update_task_status, valid_statuses, ht]

theorem terminal_guard_amended_witness :
    alookup c3db.tasks 2 = some c3cancelled ∧
    (c3cancelled.status = "已取消" ∨ c3cancelled.status = "已完成") ∧
    ((∃ msg, complete_task_manual c3db 2 4 none = (c3db, .err msg)) ∧
      (∀ ns, ns ∈ ["待开始", "进行中", "已取消"] →
        update_task_status c3db 2 ns none 4 =
          ({ c3db with tasks := aupdate c3db.tasks 2 (fun tt =>
              { tt with status := ns }) },
            .ok "任务状态更新成功"))) :=
  ⟨by decide, by decide,
    terminal_guard_amended c3db 2 4 none c3cancelled (by decide) (by decide)⟩

/-! ### Supplier-selection lemmas -/

theorem pyMin_spec {α : Type} (key : α → ℚ) :
    ∀ (l : List α) (a : α), pyMin key a l ∈ a :: l ∧
      ∀ x ∈ a :: l, key (pyMin key a l) ≤ key x := by
  intro l
  induction l with
  | nil =>
    intro a
    refine ⟨by simp [pyMin], ?_⟩
    intro x hx
    simp at hx
    subst hx
    simp [pyMin]
  | cons b t ih =>
    intro a
    have hstep : pyMin key a (b :: t) =
        pyMin key (if key b < key a then b else a) t := rfl
    set c := if key b < key a then b else a with hc
    have hca : key c ≤ key a := by
      rw [hc]; split
      · exact le_of_lt (by assumption)
      · exact le_refl _
    have hcb : key c ≤ key b := by
      rw [hc]; split
      · exact le_refl _
      · exact le_of_not_lt (by assumption)
    obtain ⟨hmem, hle⟩ := ih c
    constructor
    · rw [hstep]
      rcases List.mem_cons.1 hmem with h | h
      · rw [h, hc]
        split
        · simp
        · simp
      · simp [h]
    · intro x hx
      rw [hstep]
      rcases List.mem_cons.1 hx with rfl | hx'
      · exact le_trans (hle c (by simp)) hca
      · rcases List.mem_cons.1 hx' with rfl | hx''
        · exact le_trans (hle c (by simp)) hcb
        · exact le_trans (le_refl _) (hle x (by simp [hx'']))

theorem mem_get_material_suppliers (db : DB) (mid : Nat) (p : Nat × MSLink) :
    p ∈ get_material_suppliers db mid ↔
      p ∈ db.links ∧ p.2.material_id = mid ∧
        supplierActive db p.2.supplier_id := by
  unfold get_material_suppliers
  rw [(List.perm_insertionSort linkRel _).mem_iff, List.mem_filter]
  simp [and_assoc]

/-- C7: supplier selection considers exactly the links of the material whose
supplier is in active cooperation; it returns a preferred link of minimal
unit price when any preferred candidate exists, otherwise a candidate of
minimal unit price, and `none` exactly when there is no candidate.  As a
pure function of the database it is deterministic. -/
theorem select_optimal_supplier_spec (db : DB) (mid : Nat) :
    (get_material_suppliers db mid = [] → select_optimal_supplier db mid = none) ∧
    (∀ p, select_optimal_supplier db mid = some p →
      (p ∈ db.links ∧ p.2.material_id = mid ∧
        supplierActive db p.2.supplier_id) ∧
      ((get_material_suppliers db mid).filter
          (fun q => decide (q.2.preferred = "是")) ≠ [] →
        p.2.preferred = "是" ∧
        ∀ q ∈ get_material_suppliers db mid, q.2.preferred = "是" →
          p.2.price ≤ q.2.price) ∧
      ((get_material_suppliers db mid).filter
          (fun q => decide (q.2.preferred = "是")) = [] →
        ∀ q ∈ get_material_suppliers db mid, p.2.price ≤ q.2.price)) ∧
    (get_material_suppliers db mid ≠ [] →
      ∃ p, select_optimal_supplier db mid = some p) := by
  cases hgs : get_material_suppliers db mid with
  | nil =>
    refine ⟨fun _ => by simp [select_optimal_supplier, hgs], ?_, fun h => absurd rfl h⟩
    intro p hp
    simp [select_optimal_supplier, hgs] at hp
  | cons s rest =>
    have hsel : select_optimal_supplier db mid =
        match (s :: rest).filter (fun p => decide (p.2.preferred = "是")) with
        | [] => some (pyMin (fun p => p.2.price) s rest)
        | q :: qrest => some (pyMin (fun p => p.2.price) q qrest) := by
      simp [select_optimal_supplier, hgs]
    cases hpref : (s :: rest).filter (fun p => decide (p.2.preferred = "是")) with
    | nil =>
      rw [hpref] at hsel
      refine ⟨fun h => absurd h (List.cons_ne_nil _ _), ?_,
        fun _ => ⟨_, hsel⟩⟩
      intro p hp
      rw [hsel] at hp
      obtain rfl := Option.some.inj hp
      obtain ⟨hmem, hle⟩ := pyMin_spec (fun p => p.2.price) rest s
      refine ⟨(mem_get_material_suppliers db mid _).1 (by rw [hgs]; exact hmem),
        ?_, ?_⟩
      · intro hne
        exact absurd rfl hne
      · intro _ q hq
        exact hle q hq
    | cons q qrest =>
      rw [hpref] at hsel
      refine ⟨fun h => absurd h (List.cons_ne_nil _ _), ?_,
        fun _ => ⟨_, hsel⟩⟩
      intro p hp
      rw [hsel] at hp
      obtain rfl := Option.some.inj hp
      obtain ⟨hmem, hle⟩ := pyMin_spec (fun p => p.2.price) qrest q
      have hmemf : pyMin (fun p => p.2.price) q qrest ∈
          (s :: rest).filter (fun p => decide (p.2.preferred = "是")) := by
        rw [hpref]; exact hmem
      have hmemc : pyMin (fun p => p.2.price) q qrest ∈ s :: rest :=
        List.mem_of_mem_filter hmemf
      have hprf : (pyMin (fun p => p.2.price) q qrest).2.preferred = "是" := by
        have := List.of_mem_filter hmemf
        simpa using this
      refine ⟨(mem_get_material_suppliers db mid _).1 (by rw [hgs]; exact hmemc),
        ?_, ?_⟩
      · intro _
        refine ⟨hprf, ?_⟩
        intro q' hq' hq'p
        have hmf : q' ∈ (s :: rest).filter
            (fun p => decide (p.2.preferred = "是")) := by
          rw [List.mem_filter]
          exact ⟨hq', by simpa using hq'p⟩
        rw [hpref] at hmf
        exact hle q' hmf
      · intro hcon
        exact absurd hcon (List.cons_ne_nil _ _)

/-- Database for the C7 scenario: material 1 offered by S1 at price 10
(not preferred) and S2 at price 8 (preferred); both suppliers active. -/
def c7db : DB :=
  { materials := [(1, { name := "纸张", quantity := 0 })],
    suppliers := [(1, { name := "S1", status := "合作中" }),
                  (2, { name := "S2", status := "合作中" })],
    links := [(1, { material_id := 1, supplier_id := 1, price := 10,
                    preferred := "否" }),
              (2, { material_id := 1, supplier_id := 2, price := 8,
                    preferred := "是" })] }

/-- The preferred link of the C7 scenario (supplier S2 at price 8). -/
def c7link : Nat × MSLink :=
  (2, { material_id := 1, supplier_id := 2, price := 8, preferred := "是" })

theorem select_optimal_supplier_spec_witness :
    select_optimal_supplier c7db 1 = some c7link ∧
    (c7link ∈ c7db.links ∧ c7link.2.material_id = 1 ∧
      supplierActive c7db c7link.2.supplier_id) ∧
    (c7link.2.preferred = "是" ∧
      ∀ q ∈ get_material_suppliers c7db 1, q.2.preferred = "是" →
        c7link.2.price ≤ q.2.price) := by
  have hsel : select_optimal_supplier c7db 1 = some c7link := by
    decide
  have h := (select_optimal_supplier_spec c7db 1).2.1 c7link hsel
  exact ⟨hsel, h.1, h.2.1 (by decide)⟩

/-- Spec-side allowed transitions of the purchase state machine:
待采购 → 已下单/已取消 and 已下单 → 已取消. -/
def purchaseAllowed (cur ns : String) : Prop :=
  (cur = "待采购" ∧ (ns = "已下单" ∨ ns = "已取消")) ∨
    (cur = "已下单" ∧ ns = "已取消")

instance (cur ns : String) : Decidable (purchaseAllowed cur ns) := by
  unfold purchaseAllowed; infer_instance

/-- C5: the generic purchase status update permits exactly the transitions
待采购 → 已下单/已取消 and 已下单 → 已取消; any purchase currently 已收货 or
已取消 is rejected unchanged, and a target of 已收货 always fails (receiving
must use the dedicated receive operation). -/
theorem purchase_update_status_state_machine (db : DB) (pid : Nat)
    (ns : String) (rd : Option String) (row : Purchase)
    (hrow : alookup db.purchases pid = some row) :
    (purchaseAllowed row.status ns →
      purchase_update_status db pid ns rd =
        ({ db with purchases := aupdate db.purchases pid (fun p => { p with status := ns }) },
          .ok "采购状态已更新" none)) ∧
    (¬ purchaseAllowed row.status ns →
      ∃ msg, purchase_update_status db pid ns rd = (db, .err msg)) ∧
    (row.status = "已收货" ∨ row.status = "已取消" →
      ∃ msg, purchase_update_status db pid ns rd = (db, .err msg)) ∧
    (ns = "已收货" →
      ∃ msg, purchase_update_status db pid ns rd = (db, .err msg)) := by
  by_cases hterm : row.status = "已收货" ∨ row.status = "已取消"
  · have herr : purchase_update_status db pid ns rd =
        (db, .err "该采购记录已完成或已取消，状态不可再修改") := by
      simp [purchase_update_status, hrow, hterm]
    refine ⟨?_, fun _ => ⟨_, herr⟩, fun _ => ⟨_, herr⟩, fun _ => ⟨_, herr⟩⟩
    intro hal
    rcases hal with ⟨h, _⟩ | ⟨h, _⟩ <;> rcases hterm with h' | h' <;>
      rw [h] at h' <;> exact absurd h' (by decide)
  · by_cases hvalid : ns ∈ ["待采购", "已下单", "已收货", "已取消"]
    · by_cases hal : purchaseAllowed row.status ns
      · have hsucc : purchase_update_status db pid ns rd =
            ({ db with purchases := aupdate db.purchases pid (fun p => { p with status := ns }) },
              .ok "采购状态已更新" none) := by
          rcases hal with ⟨h, h' | h'⟩ | ⟨h, h'⟩ <;>
            simp [purchase_update_status, hrow, hterm, hvalid, h, h']
        refine ⟨fun _ => hsucc, fun hno => absurd hal hno, ?_, ?_⟩
        · intro h
          exact absurd h hterm
        · intro h
          rcases hal with ⟨_, h' | h'⟩ | ⟨_, h'⟩ <;> rw [h] at h' <;>
            exact absurd h' (by decide)
      · have hcond : ¬ ((row.status = "待采购" ∨ row.status = "已下单") ∧
            ns ∈ (if row.status = "待采购" then ["已下单", "已取消"]
                  else if row.status = "已下单" then ["已取消"] else [])) := by
          intro ⟨hc, hns⟩
          apply hal
          rcases hc with h | h
          · rw [h] at hns
            simp at hns
            exact Or.inl ⟨h, hns⟩
          · by_cases h0 : row.status = "待采购"
            · rw [h0] at hns
              simp at hns
              exact Or.inl ⟨h0, hns⟩
            · rw [if_neg h0, h] at hns
              simp at hns
              exact Or.inr ⟨h, hns⟩
        have herr : ∃ msg, purchase_update_status db pid ns rd = (db, .err msg) := by
          have hstep : purchase_update_status db pid ns rd =
              if ns = "已收货" then (db, .err "请使用收货入库来完成收货操作")
              else (db, .err ("非法的状态流转：" ++ row.status ++ " -> " ++ ns)) := by
            simp only [purchase_update_status, hrow]
            rw [if_neg hterm, if_neg (not_not_intro hvalid), if_neg hcond]
          by_cases hr : ns = "已收货"
          · exact ⟨_, by rw [hstep, if_pos hr]⟩
          · exact ⟨_, by rw [hstep, if_neg hr]⟩
        exact ⟨fun h => absurd h hal, fun _ => herr, fun h => absurd h hterm,
          fun _ => herr⟩
    · have herr : purchase_update_status db pid ns rd =
          (db, .err "无效的采购状态") := by
        simp [purchase_update_status, hrow, hterm, hvalid]
      refine ⟨?_, fun _ => ⟨_, herr⟩, fun h => absurd h hterm, fun _ => ⟨_, herr⟩⟩
      intro hal
      rcases hal with ⟨_, h' | h'⟩ | ⟨_, h'⟩ <;> rw [h'] at hvalid <;>
        exact absurd (by decide) hvalid

/-- Database for the C5/C10 witnesses: purchase 1 is 待采购. -/
def c5db : DB :=
  { purchases := [(1, { task_id := 3, link_id := 2, qty := 20,
                        total_cost := 100, status := "待采购" })] }

/-- The pending purchase row of `c5db`. -/
def c5row : Purchase :=
  { task_id := 3, link_id := 2, qty := 20, total_cost := 100, status := "待采购" }

theorem purchase_update_status_state_machine_witness :
    alookup c5db.purchases 1 = some c5row ∧
    purchaseAllowed c5row.status "已取消" ∧
    ((purchaseAllowed c5row.status "已取消" →
      purchase_update_status c5db 1 "已取消" none =
        ({ c5db with purchases := aupdate c5db.purchases 1 (fun p => { p with status := "已取消" }) },
          .ok "采购状态已更新" none)) ∧
    (¬ purchaseAllowed c5row.status "已取消" →
      ∃ msg, purchase_update_status c5db 1 "已取消" none = (c5db, .err msg)) ∧
    (c5row.status = "已收货" ∨ c5row.status = "已取消" →
      ∃ msg, purchase_update_status c5db 1 "已取消" none = (c5db, .err msg)) ∧
    ("已取消" = "已收货" →
      ∃ msg, purchase_update_status c5db 1 "已取消" none = (c5db, .err msg))) :=
  ⟨by decide, by decide,
    purchase_update_status_state_machine c5db 1 "已取消" none c5row (by decide)⟩

/-- Shape of the state after a generic purchase status update: either the
database is unchanged (any error path) or only the addressed purchase's
status field was overwritten. -/
theorem purchase_update_status_shape (db : DB) (pid : Nat) (ns : String)
    (rd : Option String) :
    (purchase_update_status db pid ns rd).1 = db ∨
    (purchase_update_status db pid ns rd).1 =
      { db with purchases := aupdate db.purchases pid (fun p => { p with status := ns }) } := by
  cases hrec : alookup db.purchases pid with
  | none => exact Or.inl (by simp [purchase_update_status, hrec])
  | some record =>
    by_cases h1 : record.status = "已收货" ∨ record.status = "已取消"
    · exact Or.inl (by simp [purchase_update_status, hrec, h1])
    · by_cases h2 : ns ∈ ["待采购", "已下单", "已收货", "已取消"]
      · by_cases h3 : (record.status = "待采购" ∨ record.status = "已下单") ∧
            ns ∈ (if record.status = "待采购" then ["已下单", "已取消"]
                  else if record.status = "已下单" then ["已取消"] else [])
        · exact Or.inr (by simp [purchase_update_status, hrec, h1, h2, h3])
        · by_cases h4 : ns = "已收货"
          · refine Or.inl ?_
            simp only [purchase_update_status, hrec]
            rw [if_neg h1, if_neg (not_not_intro h2), if_neg h3, if_pos h4]
          · refine Or.inl ?_
            simp only [purchase_update_status, hrec]
            rw [if_neg h1, if_neg (not_not_intro h2), if_neg h3, if_neg h4]
      · exact Or.inl (by simp [purchase_update_status, hrec, h1, h2])

/-- C10: the generic purchase status update accepts a receipt-date argument
but never uses it, and it never touches anything except the status field of
the addressed purchase: materials, tasks, the stock log, links, suppliers,
and every purchase's task id, link id, quantity, total cost and receipt date
are unchanged by every call. -/
theorem purchase_update_status_frame (db : DB) (pid : Nat) (ns : String)
    (rd : Option String) :
    (purchase_update_status db pid ns rd).1.materials = db.materials ∧
    (purchase_update_status db pid ns rd).1.tasks = db.tasks ∧
    (purchase_update_status db pid ns rd).1.stockLog = db.stockLog ∧
    (purchase_update_status db pid ns rd).1.links = db.links ∧
    (purchase_update_status db pid ns rd).1.suppliers = db.suppliers ∧
    (∀ pid', (alookup (purchase_update_status db pid ns rd).1.purchases pid').map
        (fun p => (p.task_id, p.link_id, p.qty, p.total_cost, p.receipt_date)) =
      (alookup db.purchases pid').map
        (fun p => (p.task_id, p.link_id, p.qty, p.total_cost, p.receipt_date))) ∧
    (∀ rd', purchase_update_status db pid ns rd =
      purchase_update_status db pid ns rd') := by
  have hshape := purchase_update_status_shape db pid ns rd
  rcases hshape with h | h <;>
    refine ⟨by rw [h], by rw [h], by rw [h], by rw [h], by rw [h], ?_, fun rd' => rfl⟩
  · intro pid'
    rw [h]
  · intro pid'
    rw [h]
    exact alookup_aupdate_map _ _ _ _ _ (fun a => rfl)

/-! ### Frame lemmas for the stock-in / receipt path -/

theorem update_stock_level_frame (db : DB) (mid : Nat) (dq : ℚ)
    (ct ref : String) (op : Nat) (note : String) :
    (update_stock_level db mid dq ct ref op note).1.purchases = db.purchases ∧
    (update_stock_level db mid dq ct ref op note).1.tasks = db.tasks ∧
    (update_stock_level db mid dq ct ref op note).1.links = db.links ∧
    (update_stock_level db mid dq ct ref op note).1.suppliers = db.suppliers := by
  unfold update_stock_level
  cases alookup db.materials mid with
  | none => exact ⟨rfl, rfl, rfl, rfl⟩
  | some m =>
    dsimp only
    split_ifs <;> exact ⟨rfl, rfl, rfl, rfl⟩

/-- Shape of the purchase table after a receipt: either unchanged (any error
path, including a failed stock-in) or only the addressed purchase's status
and receipt date were overwritten. -/
theorem receive_purchase_purchases_shape (db : DB) (pid op : Nat)
    (rd : Option String) (today : String) :
    (receive_purchase db pid op rd today).1.purchases = db.purchases ∨
    ∃ rdate, (receive_purchase db pid op rd today).1.purchases =
      aupdate db.purchases pid
        (fun p => { p with status := "已收货", receipt_date := some rdate }) := by
  unfold receive_purchase
  cases hrow : alookup db.purchases pid with
  | none => exact Or.inl rfl
  | some row =>
    dsimp only
    by_cases h1 : row.status = "已收货"
    · rw [if_pos h1]
      exact Or.inl rfl
    rw [if_neg h1]
    by_cases h2 : row.status = "已取消"
    · rw [if_pos h2]
      exact Or.inl rfl
    rw [if_neg h2]
    by_cases h3 : row.status ≠ "待采购"
    · rw [if_pos h3]
      exact Or.inl rfl
    rw [if_neg h3]
    cases hlk : (if row.link_id = 0 then none else alookup db.links row.link_id) with
    | none => exact Or.inl rfl
    | some link =>
      dsimp only
      by_cases h4 : row.qty ≤ 0
      · rw [if_pos h4]
        exact Or.inl rfl
      rw [if_neg h4]
      rcases hinv : update_stock_level db link.material_id row.qty "入库"
          ("purchase:" ++ toString pid) op "采购收货入库" with ⟨db1, r⟩
      have hp : db1.purchases = db.purchases := by
        have hfr := (update_stock_level_frame db link.material_id row.qty "入库"
          ("purchase:" ++ toString pid) op "采购收货入库").1
        rw [hinv] at hfr
        exact hfr
      cases r with
      | err m => exact Or.inl hp
      | ok newq =>
        refine Or.inr ⟨rd.getD today, ?_⟩
        simp [hp]

/-- C8: `create_purchase` requires a chosen non-cancelled task, an existing
link and a positive quantity; the created record starts 待采购 with total
cost `round2 (quantity × link unit price)`, and no later operation (generic
status update or receipt) ever changes any purchase's total cost. -/
theorem create_purchase_spec (db : DB) (task_id link_id : Nat) (quantity : ℚ)
    (t : PTask) (link : MSLink)
    (htid : task_id ≠ 0) (hlid : link_id ≠ 0) (hq : 0 < quantity)
    (ht : alookup db.tasks task_id = some t) (hnc : t.status ≠ "已取消")
    (hl : alookup db.links link_id = some link) :
    create_purchase db task_id link_id quantity =
      ({ db with
          purchases := db.purchases ++
            [(db.nextPurchaseId,
              { task_id := task_id, link_id := link_id, qty := quantity,
                total_cost := round2 (quantity * link.price),
                status := "待采购" })],
          nextPurchaseId := db.nextPurchaseId + 1 },
        .ok db.nextPurchaseId) ∧
    (∀ q' : ℚ, q' ≤ 0 →
      ∃ msg, create_purchase db task_id link_id q' = (db, .err msg)) ∧
    (∀ (db' : DB) (pid : Nat) (ns : String) (rd : Option String) (pid' : Nat),
      (alookup (purchase_update_status db' pid ns rd).1.purchases pid').map
          (fun p => p.total_cost) =
        (alookup db'.purchases pid').map (fun p => p.total_cost)) ∧
    (∀ (db' : DB) (pid op : Nat) (rd : Option String) (today : String) (pid' : Nat),
      (alookup (receive_purchase db' pid op rd today).1.purchases pid').map
          (fun p => p.total_cost) =
        (alookup db'.purchases pid').map (fun p => p.total_cost)) := by
  refine ⟨?_, ?_, ?_, ?_⟩
  · have hne : ¬ (task_id = 0 ∨ link_id = 0) := by
      rintro (h | h)
      exacts [htid h, hlid h]
    have hq' : ¬ quantity ≤ 0 := not_le.2 hq
    simp [create_purchase, hne, hq', ht, hnc, hl]
  · intro q' hq'
    have hne : ¬ (task_id = 0 ∨ link_id = 0) := by
      rintro (h | h)
      exacts [htid h, hlid h]
    exact ⟨"采购数量必须大于0", by simp [create_purchase, hne, hq']⟩
  · intro db' pid ns rd pid'
    rcases purchase_update_status_shape db' pid ns rd with h | h
    · rw [h]
    · rw [h]
      exact alookup_aupdate_map _ _ _ _ _ (fun a => rfl)
  · intro db' pid op rd today pid'
    rcases receive_purchase_purchases_shape db' pid op rd today with h | ⟨rdate, h⟩
    · rw [h]
    · rw [h]
      exact alookup_aupdate_map _ _ _ _ _ (fun a => rfl)

/-- Database for the C8 witness: task 9 in progress, link 2 at unit price 5. -/
def c8db : DB :=
  { tasks := [(9, { employee_id := 1, book_id := 1, qty := 10,
                    status := "进行中" })],
    links := [(2, { material_id := 3, supplier_id := 1, price := 5,
                    preferred := "否" })],
    nextPurchaseId := 4 }

/-- The task row of `c8db`. -/
def c8task : PTask :=
  { employee_id := 1, book_id := 1, qty := 10, status := "进行中" }

/-- The link row of `c8db` (unit price 5). -/
def c8link : MSLink :=
  { material_id := 3, supplier_id := 1, price := 5, preferred := "否" }

theorem create_purchase_spec_witness :
    (9 : Nat) ≠ 0 ∧ (2 : Nat) ≠ 0 ∧ (0 : ℚ) < 20 ∧
    alookup c8db.tasks 9 = some c8task ∧ c8task.status ≠ "已取消" ∧
    alookup c8db.links 2 = some c8link ∧
    round2 ((20 : ℚ) * c8link.price) = 100 ∧
    create_purchase c8db 9 2 20 =
      ({ c8db with
          purchases := c8db.purchases ++
            [(c8db.nextPurchaseId,
              { task_id := 9, link_id := 2, qty := 20,
                total_cost := round2 ((20 : ℚ) * c8link.price),
                status := "待采购" })],
          nextPurchaseId := c8db.nextPurchaseId + 1 },
        .ok c8db.nextPurchaseId) :=
  ⟨by decide, by decide, by decide, by decide, by decide, by decide,
    by norm_num [round2, c8link, round_eq],
    (create_purchase_spec c8db 9 2 20 c8task c8link (by decide) (by decide)
      (by decide) (by decide) (by decide) (by decide)).1⟩

/-- C4: receiving a purchase succeeds only from 待采购 (已收货, 已取消 and
已下单 are all rejected with the state unchanged); on the valid path the
stock-in (delta = purchase quantity, kind 入库, reference `purchase:id`) is
performed first and exactly one log entry is written, and only then the
purchase is marked 已收货 with the receipt date (defaulting to `today`); if
the stock-in fails the purchase stays 待采购 and no stock changes. -/
theorem receive_purchase_correct (db : DB) (pid op : Nat) (rd : Option String)
    (today : String) (row : Purchase)
    (hrow : alookup db.purchases pid = some row) :
    (row.status ≠ "待采购" →
      ∃ msg, receive_purchase db pid op rd today = (db, .err msg)) ∧
    (∀ link m, row.status = "待采购" → row.link_id ≠ 0 →
      alookup db.links row.link_id = some link →
      alookup db.materials link.material_id = some m →
      0 < row.qty → 0 ≤ m.quantity →
      receive_purchase db pid op rd today =
        ({ db with
            materials := setQty db.materials link.material_id (m.quantity + row.qty),
            stockLog := db.stockLog ++
              [{ material_id := link.material_id, delta := row.qty,
                 change_type := "入库",
                 reference := "purchase:" ++ toString pid,
                 operator_id := op, note := "采购收货入库" }],
            purchases := aupdate db.purchases pid (fun p =>
              { p with status := "已收货", receipt_date := some (rd.getD today) }) },
          .ok "收货并入库成功" (some (m.quantity + row.qty)))) ∧
    (∀ link, row.status = "待采购" → row.link_id ≠ 0 →
      alookup db.links row.link_id = some link →
      alookup db.materials link.material_id = none → 0 < row.qty →
      receive_purchase db pid op rd today = (db, .err "入库失败: 材料不存在")) := by
  refine ⟨?_, ?_, ?_⟩
  · intro hst
    by_cases h1 : row.status = "已收货"
    · exact ⟨"该采购已收货，不能重复收货", by simp [receive_purchase, hrow, h1]⟩
    by_cases h2 : row.status = "已取消"
    · exact ⟨"已取消的采购无法收货", by simp [receive_purchase, hrow, h1, h2]⟩
    refine ⟨"仅\x27待采购\x27的采购可以收货入库", ?_⟩
    simp only [receive_purchase, hrow]
    rw [if_neg h1, if_neg h2, if_pos hst]
  · intro link m hst hlid hl hm hq hm0
    have hs1 : row.status ≠ "已收货" := by rw [hst]; decide
    have hs2 : row.status ≠ "已取消" := by rw [hst]; decide
    have hs3 : ¬ row.status ≠ "待采购" := not_not_intro hst
    have hq' : ¬ row.qty ≤ 0 := not_le.2 hq
    have hneg : ¬ m.quantity + row.qty < 0 := by
      intro h
      linarith
    simp only [receive_purchase, hrow]
    rw [if_neg hs1, if_neg hs2, if_neg hs3, if_neg hlid, hl]
    dsimp only
    rw [if_neg hq']
    simp only [update_stock_level, hm]
    rw [if_neg hneg]
  · intro link hst hlid hl hm hq
    have hs1 : row.status ≠ "已收货" := by rw [hst]; decide
    have hs2 : row.status ≠ "已取消" := by rw [hst]; decide
    have hs3 : ¬ row.status ≠ "待采购" := not_not_intro hst
    have hq' : ¬ row.qty ≤ 0 := not_le.2 hq
    simp only [receive_purchase, hrow]
    rw [if_neg hs1, if_neg hs2, if_neg hs3, if_neg hlid, hl]
    dsimp only
    rw [if_neg hq']
    simp only [update_stock_level, hm]
    rfl

/-- Database for the C4 witness (the spec scenario): purchase 1 of quantity
20 via link 2 (unit price 5, total cost 100) for material 3 with stock 50. -/
def c4db : DB :=
  { materials := [(3, { name := "胶水", quantity := 50 })],
    links := [(2, { material_id := 3, supplier_id := 1, price := 5,
                    preferred := "否" })],
    purchases := [(1, { task_id := 9, link_id := 2, qty := 20,
                        total_cost := 100, status := "待采购" })] }

/-- The pending purchase row of `c4db`. -/
def c4row : Purchase :=
  { task_id := 9, link_id := 2, qty := 20, total_cost := 100, status := "待采购" }

/-- The link row of `c4db`. -/
def c4link : MSLink :=
  { material_id := 3, supplier_id := 1, price := 5, preferred := "否" }

/-- The material row of `c4db`. -/
def c4mat : Material := { name := "胶水", quantity := 50 }

theorem receive_purchase_correct_witness :
    alookup c4db.purchases 1 = some c4row ∧
    c4row.status = "待采购" ∧ c4row.link_id ≠ 0 ∧
    alookup c4db.links c4row.link_id = some c4link ∧
    alookup c4db.materials c4link.material_id = some c4mat ∧
    (0 : ℚ) < c4row.qty ∧ (0 : ℚ) ≤ c4mat.quantity ∧
    receive_purchase c4db 1 7 none "2024-01-05" =
      ({ c4db with
          materials := setQty c4db.materials c4link.material_id
            (c4mat.quantity + c4row.qty),
          stockLog := c4db.stockLog ++
            [{ material_id := c4link.material_id, delta := c4row.qty,
               change_type := "入库",
               reference := "purchase:" ++ toString 1,
               operator_id := 7, note := "采购收货入库" }],
          purchases := aupdate c4db.purchases 1 (fun p =>
            { p with status := "已收货",
                     receipt_date := some ((none : Option String).getD "2024-01-05") }) },
        .ok "收货并入库成功" (some (c4mat.quantity + c4row.qty))) :=
  ⟨by decide, by decide, by decide, by decide, by decide, by decide, by decide,
    (receive_purchase_correct c4db 1 7 none "2024-01-05" c4row (by decide)).2.1
      c4link c4mat (by decide) (by decide) (by decide) (by decide)
      (by decide) (by decide)⟩

/-! ### Task-submission lemmas -/

/-- Supplier selection only reads the link and supplier tables. -/
theorem select_optimal_supplier_congr (db db' : DB) (hl : db'.links = db.links)
    (hs : db'.suppliers = db.suppliers) (mid : Nat) :
    select_optimal_supplier db' mid = select_optimal_supplier db mid := by
  unfold select_optimal_supplier get_material_suppliers supplierActive
  simp only [hl, hs]

/-- Spec-side list of required materials that have no eligible supplier. -/
def missingOf (db : DB) (bid : Nat) (q : Int) : List Nat :=
  ((calculate_material_requirements { qty := q, book_id := bid }).filter
    (fun p => (select_optimal_supplier db p.1).isNone)).map Prod.fst

theorem genPurchases_spec :
    ∀ (req : List (Nat × ℚ)) (db : DB) (tid : Nat),
      ((genPurchases db tid req).1.materials = db.materials ∧
        (genPurchases db tid req).1.tasks = db.tasks ∧
        (genPurchases db tid req).1.stockLog = db.stockLog ∧
        (genPurchases db tid req).1.links = db.links ∧
        (genPurchases db tid req).1.suppliers = db.suppliers) ∧
      (genPurchases db tid req).2.2 =
        (req.filter (fun p => (select_optimal_supplier db p.1).isNone)).map
          Prod.fst ∧
      ∃ newps, (genPurchases db tid req).1.purchases = db.purchases ++ newps ∧
        newps.length =
          (req.filter (fun p => (select_optimal_supplier db p.1).isSome)).length ∧
        ∀ x ∈ newps, x.2.task_id = tid ∧ x.2.status = "待采购" := by
  intro req
  induction req with
  | nil =>
    intro db tid
    exact ⟨⟨rfl, rfl, rfl, rfl, rfl⟩, rfl,
      ⟨[], by simp [genPurchases], rfl, by simp⟩⟩
  | cons p rest ih =>
    intro db tid
    cases hsel : select_optimal_supplier db p.1 with
    | none =>
      have hstep : genPurchases db tid (p :: rest) =
          ((genPurchases db tid rest).1, (genPurchases db tid rest).2.1,
            p.1 :: (genPurchases db tid rest).2.2) := by
        simp [genPurchases, hsel]
      obtain ⟨hfr, hmiss, newps, hps, hlen, hall⟩ := ih db tid
      rw [hstep]
      refine ⟨hfr, ?_, ⟨newps, hps, ?_, hall⟩⟩
      · simp [List.filter_cons, hsel, hmiss]
      · simp [List.filter_cons, hsel, hlen]
    | some best =>
      have hstep : genPurchases db tid (p :: rest) =
          (genPurchases (dbAfter db tid p best) tid rest |>.1,
            db.nextPurchaseId :: (genPurchases (dbAfter db tid p best) tid rest).2.1,
            (genPurchases (dbAfter db tid p best) tid rest).2.2) := by
        simp [genPurchases, hsel, dbAfter]
      obtain ⟨hfr, hmiss, newps, hps, hlen, hall⟩ := ih (dbAfter db tid p best) tid
      have hsc : ∀ mid, select_optimal_supplier (dbAfter db tid p best) mid =
          select_optimal_supplier db mid :=
        fun mid => select_optimal_supplier_congr db _ rfl rfl mid
      rw [hstep]
      refine ⟨⟨hfr.1, hfr.2.1, hfr.2.2.1, hfr.2.2.2.1, hfr.2.2.2.2⟩, ?_,
        ⟨(db.nextPurchaseId, mkGenPurchase tid p best) :: newps, ?_, ?_, ?_⟩⟩
      · rw [hmiss]
        have hf : (fun q => (select_optimal_supplier (dbAfter db tid p best) q.1).isNone) =
            (fun q : Nat × ℚ => (select_optimal_supplier db q.1).isNone) := by
          funext q
          rw [hsc]
        rw [hf]
        simp [List.filter_cons, hsel]
      · rw [hps]
        simp [dbAfter, mkGenPurchase]
      · have hf : (fun q => (select_optimal_supplier (dbAfter db tid p best) q.1).isSome) =
            (fun q : Nat × ℚ => (select_optimal_supplier db q.1).isSome) := by
          funext q
          rw [hsc]
        rw [hf] at hlen
        simp [List.filter_cons, hsel, hlen]
      · intro x hx
        rcases List.mem_cons.1 hx with rfl | hx'
        · exact ⟨rfl, rfl⟩
        · exact hall x hx'

/-- C6: task submission validates before any mutation (required fields,
positive quantity, valid non-past due date, active employee, existing book);
then, in one transaction, it creates the task row and one purchase order per
required material; if any required material has no eligible supplier the
whole transaction aborts — no task row and no purchase order persists — and
the error lists all missing materials by name. -/
theorem submit_printing_task_spec (db : DB) (td : TaskData) (today : Int) :
    (∀ msg, validate_task_data td today = some msg →
      submit_printing_task db td today = (db, .err msg)) ∧
    (validate_task_data td today = none →
      ∀ msg, validate_associated_data db td = some msg →
        submit_printing_task db td today = (db, .err msg)) ∧
    (∀ eid bid q d,
      validate_task_data td today = none →
      validate_associated_data db td = none →
      td.employee_id = some eid → td.book_id = some bid →
      td.qty = some q → td.due_date = some (.valid d) →
      ((missingOf db bid q ≠ [] →
        submit_printing_task db td today =
          (db, .err ("系统错误: 生成采购需求失败: " ++
            missingMsg db (missingOf db bid q)))) ∧
      (missingOf db bid q = [] →
        ∃ db', submit_printing_task db td today =
            (db', .ok db.nextTaskId
              ("印刷任务提交成功！任务ID: " ++ toString db.nextTaskId)) ∧
          db'.tasks = db.tasks ++ [(db.nextTaskId,
            { employee_id := eid, book_id := bid, qty := q,
              status := "待开始", due_date := d })] ∧
          db'.materials = db.materials ∧ db'.stockLog = db.stockLog ∧
          ∃ newps, db'.purchases = db.purchases ++ newps ∧
            newps.length =
              (calculate_material_requirements { qty := q, book_id := bid }).length ∧
            ∀ x ∈ newps, x.2.task_id = db.nextTaskId ∧
              x.2.status = "待采购"))) := by
  refine ⟨?_, ?_, ?_⟩
  · intro msg hv
    simp [submit_printing_task, hv]
  · intro hv msg hva
    simp [submit_printing_task, hv, hva]
  · intro eid bid q d hv hva he hb hqq hdd
    obtain ⟨e, b, dd, qq⟩ := td
    dsimp only at he hb hqq hdd
    subst he
    subst hb
    subst hqq
    subst hdd
    have hgen := genPurchases_spec
      (calculate_material_requirements { qty := q, book_id := bid })
      { db with
        tasks := db.tasks ++ [(db.nextTaskId,
          { employee_id := eid, book_id := bid, qty := q,
            status := "待开始", due_date := d })],
        nextTaskId := db.nextTaskId + 1 }
      db.nextTaskId
    obtain ⟨hfr, hmiss, newps, hps, hlen, hall⟩ := hgen
    have hsc : ∀ mid, select_optimal_supplier
        { db with
          tasks := db.tasks ++ [(db.nextTaskId,
            { employee_id := eid, book_id := bid, qty := q,
              status := "待开始", due_date := d })],
          nextTaskId := db.nextTaskId + 1 } mid =
        select_optimal_supplier db mid :=
      fun mid => select_optimal_supplier_congr db _ rfl rfl mid
    have hmiss' : (genPurchases
        { db with
          tasks := db.tasks ++ [(db.nextTaskId,
            { employee_id := eid, book_id := bid, qty := q,
              status := "待开始", due_date := d })],
          nextTaskId := db.nextTaskId + 1 } db.nextTaskId
        (calculate_material_requirements { qty := q, book_id := bid })).2.2 =
        missingOf db bid q := by
      rw [hmiss]
      unfold missingOf
      congr 1
    constructor
    · intro hm
      have hne := hmiss' ▸ hm
      simp only [submit_printing_task, hv, hva]
      rw [if_pos hne, hmiss']
    · intro hm
      have hnn : ¬ ((genPurchases
          { db with
            tasks := db.tasks ++ [(db.nextTaskId,
              { employee_id := eid, book_id := bid, qty := q,
                status := "待开始", due_date := d })],
            nextTaskId := db.nextTaskId + 1 } db.nextTaskId
          (calculate_material_requirements { qty := q, book_id := bid })).2.2 ≠ []) :=
        not_not_intro (hmiss'.trans hm)
      refine ⟨_, ?_, ?_, ?_, ?_, newps, hps, ?_, hall⟩
      · simp only [submit_printing_task, hv, hva]
        rw [if_neg hnn]
      · exact hfr.2.1
      · exact hfr.1
      · exact hfr.2.2.1
      · rw [hlen]
        have hfilter : (calculate_material_requirements
            { qty := q, book_id := bid }).filter
            (fun p => (select_optimal_supplier
              { db with
                tasks := db.tasks ++ [(db.nextTaskId,
                  { employee_id := eid, book_id := bid, qty := q,
                    status := "待开始", due_date := d })],
                nextTaskId := db.nextTaskId + 1 } p.1).isSome) =
            calculate_material_requirements { qty := q, book_id := bid } := by
          apply List.filter_eq_self.mpr
          intro p hp
          rw [hsc]
          have hmnil : (calculate_material_requirements
              { qty := q, book_id := bid }).filter
              (fun p => (select_optimal_supplier db p.1).isNone) = [] :=
            List.map_eq_nil.mp hm
          have hni := List.filter_eq_nil.mp hmnil p hp
          cases hopt : select_optimal_supplier db p.1 with
          | none => rw [hopt] at hni; simp at hni
          | some v => simp
        rw [hfilter]

/-- Database for the C6 witness: material 1 has an active preferred supplier,
material 2 has no supplier link at all, so submission must abort. -/
def c6db : DB :=
  { materials := [(1, { name := "铜版纸", quantity := 30 }),
                  (2, { name := "油墨", quantity := 30 })],
    suppliers := [(1, { name := "S1", status := "合作中" })],
    links := [(5, { material_id := 1, supplier_id := 1, price := 3,
                    preferred := "是" })],
    employees := [(1, { name := "张三", status := "在职" })],
    books := [(1, { name := "样书" })] }

/-- The submitted task data of the C6 witness (quantity 4, due day 10). -/
def c6td : TaskData :=
  { employee_id := some 1, book_id := some 1,
    due_date := some (.valid 10), qty := some 4 }

theorem submit_printing_task_spec_witness :
    validate_task_data c6td 5 = none ∧
    validate_associated_data c6db c6td = none ∧
    c6td.employee_id = some 1 ∧ c6td.book_id = some 1 ∧
    c6td.qty = some 4 ∧ c6td.due_date = some (.valid 10) ∧
    missingOf c6db 1 4 = [2] ∧
    missingMsg c6db [2] =
      "以下材料没有可用供应商：油墨(ID:2)。请到‘材料/供应商’维护关联或设为合作中。" ∧
    ((missingOf c6db 1 4 ≠ [] →
      submit_printing_task c6db c6td 5 =
        (c6db, .err ("系统错误: 生成采购需求失败: " ++
          missingMsg c6db (missingOf c6db 1 4)))) ∧
    (missingOf c6db 1 4 = [] →
      ∃ db', submit_printing_task c6db c6td 5 =
          (db', .ok c6db.nextTaskId
            ("印刷任务提交成功！任务ID: " ++ toString c6db.nextTaskId)) ∧
        db'.tasks = c6db.tasks ++ [(c6db.nextTaskId,
          { employee_id := 1, book_id := 1, qty := 4,
            status := "待开始", due_date := 10 })] ∧
        db'.materials = c6db.materials ∧ db'.stockLog = c6db.stockLog ∧
        ∃ newps, db'.purchases = c6db.purchases ++ newps ∧
          newps.length =
            (calculate_material_requirements { qty := 4, book_id := 1 }).length ∧
          ∀ x ∈ newps, x.2.task_id = c6db.nextTaskId ∧
            x.2.status = "待采购")) :=
  ⟨by decide, by decide, by decide, by decide, by decide, by decide,
    by decide, by decide,
    (submit_printing_task_spec c6db c6td 5).2.2 1 1 4 10 (by decide)
      (by decide) (by decide) (by decide) (by decide) (by decide)⟩

end PrintPub
